import Mathlib

/-!
Verification of the incomfort-client library (src/incomfortclient/__init__.py)
against its specification.  The Python module is shallowly embedded: the raw
JSON status payload becomes an association list from field names to natural
numbers, Python dict lookup becomes an Except-valued lookup that signals a
KeyError for a missing key, and float arithmetic on the decoded fixed-point
quantities is modelled with exact rationals.
-/

namespace Incomfort

/-- Constant NULL_SERIAL_NO: the reserved serial string of a heater slot that
has no heater bound to it. -/
def NULL_SERIAL_NO : String := "000W00000"

/-- Constant INVALID_VALUE = (2 ** 15 - 1) / 100.0, the decoded sentinel. -/
def INVALID_VALUE : ℚ := (2 ^ 15 - 1) / 100

/-- Constant BITMASK_BURNER = 0x08 (burner state). -/
def BITMASK_BURNER : ℕ := 0x08

/-- Constant BITMASK_FAIL = 0x01 (failure state). -/
def BITMASK_FAIL : ℕ := 0x01

/-- Constant BITMASK_PUMP = 0x02 (pump state). -/
def BITMASK_PUMP : ℕ := 0x02

/-- Constant BITMASK_TAP = 0x04 (tap state). -/
def BITMASK_TAP : ℕ := 0x04

/-- Constant OVERRIDE_MAX_TEMP = 30.0. -/
def OVERRIDE_MAX_TEMP : ℚ := 30

/-- Constant OVERRIDE_MIN_TEMP = 5.0. -/
def OVERRIDE_MIN_TEMP : ℚ := 5

/-- A RawPayload: the flat JSON object the gateway returns for one heater,
mapping field-name strings to integer field values. -/
abbrev Payload := List (String × ℕ)

/-- Python dict lookup data_dict[key]: the value at the key, or a KeyError
when the key is absent from the payload. -/
def dictGet (d : Payload) (key : String) : Except String ℕ :=
  match d.find? (fun p => p.1 == key) with
  | some p => Except.ok p.2
  | none => Except.error ("KeyError: " ++ key)

/-- Inner helper of the Python function named underscore-value:
(most_significant_byte * 256 + least_significant_byte) / 100.0. -/
def _convert (most_significant_byte least_significant_byte : ℕ) : ℚ :=
  (most_significant_byte * 256 + least_significant_byte) / 100

/-- Byte-pair decoding including the sentinel check, i.e. the final two lines
of the Python value decoder: the converted value, unless it equals
INVALID_VALUE, in which case None. -/
def decode (msb lsb : ℕ) : Option ℚ :=
  let v := _convert msb lsb
  if v = INVALID_VALUE then none else some v

/-- Python function underscore-value(key_stub, data_dict): reads the msb and
lsb fields of the stub from the payload (KeyError when missing) and decodes
them. -/
def _value (key_stub : String) (data_dict : Payload) : Except String (Option ℚ) := do
  let msb ← dictGet data_dict (key_stub ++ "_msb")
  let lsb ← dictGet data_dict (key_stub ++ "_lsb")
  pure (decode msb lsb)

/-- A Heater as constructed by Gateway.heaters: the reported serial number and
the positional index in the heater list. -/
structure Heater where
  serial_no : String
  heater_idx : ℕ
deriving DecidableEq

namespace Heater

/-- Property Heater.is_burning: bool(data[IO] & BITMASK_BURNER). -/
def is_burning (d : Payload) : Except String Bool := do
  let io ← dictGet d "IO"
  pure ((io &&& BITMASK_BURNER) != 0)

/-- Property Heater.is_failed: bool(data[IO] & BITMASK_FAIL). -/
def is_failed (d : Payload) : Except String Bool := do
  let io ← dictGet d "IO"
  pure ((io &&& BITMASK_FAIL) != 0)

/-- Property Heater.is_pumping: bool(data[IO] & BITMASK_PUMP). -/
def is_pumping (d : Payload) : Except String Bool := do
  let io ← dictGet d "IO"
  pure ((io &&& BITMASK_PUMP) != 0)

/-- Property Heater.is_tapping: bool(data[IO] & BITMASK_TAP). -/
def is_tapping (d : Payload) : Except String Bool := do
  let io ← dictGet d "IO"
  pure ((io &&& BITMASK_TAP) != 0)

/-- Property Heater.heater_temp: the decoded ch_temp field pair. -/
def heater_temp (d : Payload) : Except String (Option ℚ) := _value "ch_temp" d

/-- Property Heater.tap_temp: the decoded tap_temp field pair. -/
def tap_temp (d : Payload) : Except String (Option ℚ) := _value "tap_temp" d

/-- Property Heater.pressure: the decoded ch_pressure field pair. -/
def pressure (d : Payload) : Except String (Option ℚ) := _value "ch_pressure" d

end Heater

-- Generic fact used for the IO bitmask flags: testing one power-of-two mask
-- with Python bool() is testing the corresponding bit.
theorem and_pow_bne (io i : ℕ) : ((io &&& 2 ^ i) != 0) = io.testBit i := by
  rw [Nat.and_two_pow]
  cases h : io.testBit i
  · simp
  · simp

/-- C1: for bytes msb, lsb in 0..255 the value decoder returns
(msb * 256 + lsb) / 100, except that the single pair (127, 255) (16-bit value
0x7FFF) decodes to None; no other byte combination yields None and no range
validation is performed. -/
theorem decode_bytes_spec (msb lsb : ℕ) (hm : msb ≤ 255) (hl : lsb ≤ 255) :
    (decode msb lsb = none ↔ msb = 127 ∧ lsb = 255) ∧
    (¬(msb = 127 ∧ lsb = 255) →
      decode msb lsb = some (((msb * 256 + lsb : ℕ) : ℚ) / 100)) := by
  have hconv : _convert msb lsb = INVALID_VALUE ↔ msb * 256 + lsb = 32767 := by
    unfold _convert INVALID_VALUE
    rw [div_eq_div_iff (by norm_num) (by norm_num)]
    constructor
    · intro h
      have h2 : ((msb * 256 + lsb : ℕ) : ℚ) = ((32767 : ℕ) : ℚ) := by
        push_cast
        linarith
      exact_mod_cast h2
    · intro h
      have h2 : ((msb * 256 + lsb : ℕ) : ℚ) = ((32767 : ℕ) : ℚ) := by exact_mod_cast h
      push_cast at h2
      linarith
  have hiff : msb * 256 + lsb = 32767 ↔ msb = 127 ∧ lsb = 255 := by omega
  have hnone : decode msb lsb = none ↔ _convert msb lsb = INVALID_VALUE := by
    unfold decode
    by_cases hc : _convert msb lsb = INVALID_VALUE
    · simp [hc]
    · simp [hc]
  refine ⟨hnone.trans (hconv.trans hiff), fun hne => ?_⟩
  have hc : ¬ _convert msb lsb = INVALID_VALUE := fun hcc => hne (hiff.mp (hconv.mp hcc))
  unfold decode
  simp only [if_neg hc]
  unfold _convert
  congr 1
  push_cast
  ring

/-- Witness for C1 at concrete bytes: (127, 255) decodes to None and
(24, 168) decodes to 63.12. -/
theorem decode_bytes_spec_witness :
    decode 127 255 = none ∧ decode 24 168 = some (6312 / 100 : ℚ) := by
  refine ⟨(decode_bytes_spec 127 255 (by norm_num) (by norm_num)).1.mpr ⟨rfl, rfl⟩, ?_⟩
  have h := (decode_bytes_spec 24 168 (by norm_num) (by norm_num)).2 (by decide)
  rw [h]
  norm_num

/-- C2: for a payload whose IO field is any value 0..15, is_burning tests
bit 3, is_failed bit 0, is_pumping bit 1 and is_tapping bit 2, and each flag
depends only on its own bit, independently of the others. -/
theorem heater_io_flags (io : ℕ) (hio : io < 16) :
    (Heater.is_burning [("IO", io)] = Except.ok (io.testBit 3)) ∧
    (Heater.is_failed [("IO", io)] = Except.ok (io.testBit 0)) ∧
    (Heater.is_pumping [("IO", io)] = Except.ok (io.testBit 1)) ∧
    (Heater.is_tapping [("IO", io)] = Except.ok (io.testBit 2)) ∧
    (∀ io2, io.testBit 3 = io2.testBit 3 →
      Heater.is_burning [("IO", io)] = Heater.is_burning [("IO", io2)]) ∧
    (∀ io2, io.testBit 0 = io2.testBit 0 →
      Heater.is_failed [("IO", io)] = Heater.is_failed [("IO", io2)]) ∧
    (∀ io2, io.testBit 1 = io2.testBit 1 →
      Heater.is_pumping [("IO", io)] = Heater.is_pumping [("IO", io2)]) ∧
    (∀ io2, io.testBit 2 = io2.testBit 2 →
      Heater.is_tapping [("IO", io)] = Heater.is_tapping [("IO", io2)]) := by
  have hb : ∀ m : ℕ, Heater.is_burning [("IO", m)] = Except.ok (m.testBit 3) := by
    intro m
    have h0 : Heater.is_burning [("IO", m)] = Except.ok ((m &&& 2 ^ 3) != 0) := rfl
    rw [h0, and_pow_bne]
  have hf : ∀ m : ℕ, Heater.is_failed [("IO", m)] = Except.ok (m.testBit 0) := by
    intro m
    have h0 : Heater.is_failed [("IO", m)] = Except.ok ((m &&& 2 ^ 0) != 0) := rfl
    rw [h0, and_pow_bne]
  have hp : ∀ m : ℕ, Heater.is_pumping [("IO", m)] = Except.ok (m.testBit 1) := by
    intro m
    have h0 : Heater.is_pumping [("IO", m)] = Except.ok ((m &&& 2 ^ 1) != 0) := rfl
    rw [h0, and_pow_bne]
  have ht : ∀ m : ℕ, Heater.is_tapping [("IO", m)] = Except.ok (m.testBit 2) := by
    intro m
    have h0 : Heater.is_tapping [("IO", m)] = Except.ok ((m &&& 2 ^ 2) != 0) := rfl
    rw [h0, and_pow_bne]
  refine ⟨hb io, hf io, hp io, ht io, ?_, ?_, ?_, ?_⟩
  · intro io2 h
    rw [hb io, hb io2, h]
  · intro io2 h
    rw [hf io, hf io2, h]
  · intro io2 h
    rw [hp io, hp io2, h]
  · intro io2 h
    rw [ht io, ht io2, h]

/-- Witness for C2 at IO = 9 (bits 0 and 3 set): burning and failed are true,
pumping and tapping are false, and flag independence holds between 9 and 8 on
bit 3. -/
theorem heater_io_flags_witness :
    Heater.is_burning [("IO", 9)] = Except.ok true ∧
    Heater.is_failed [("IO", 9)] = Except.ok true ∧
    Heater.is_pumping [("IO", 9)] = Except.ok false ∧
    Heater.is_tapping [("IO", 9)] = Except.ok false ∧
    Heater.is_burning [("IO", 9)] = Heater.is_burning [("IO", 8)] := by
  have h := heater_io_flags 9 (by norm_num)
  refine ⟨?_, ?_, ?_, ?_, h.2.2.2.2.1 8 (by decide)⟩
  · rw [h.1]
    exact congrArg Except.ok (by decide)
  · rw [h.2.1]
    exact congrArg Except.ok (by decide)
  · rw [h.2.2.1]
    exact congrArg Except.ok (by decide)
  · rw [h.2.2.2.1]
    exact congrArg Except.ok (by decide)

/-- A member of one of the two Python IntEnum code tables: its integer value
and its (uppercase) member name. -/
structure EnumMember where
  val : ℤ
  name : String
deriving DecidableEq

/-- Lowercasing of an ASCII string, modelling the Python str.lower() call
applied to an enum member name. -/
def pyLower (s : String) : String := ⟨s.data.map Char.toLower⟩

namespace DisplayCode

end DisplayCode

namespace FaultCode

end FaultCode

/-- Code-table state of a Heater after an update: the display_code and
fault_code attributes (each an enum member or None). -/
structure CodeState where
  display_code : Option EnumMember
  fault_code : Option EnumMember
deriving DecidableEq

namespace Heater

/-- Selection made by the Heater.display_text property: the lowercased name
of the fault code when failed, else of the display code, or None when the
selected code attribute is None. -/
def displayTextOf (failed : Bool) (st : CodeState) : Option String :=
  if failed then st.fault_code.map (fun m => pyLower m.name)
  else st.display_code.map (fun m => pyLower m.name)

/-- Property Heater.display_text over a payload and the current code state;
it re-evaluates is_failed against the payload, so it raises a KeyError on an
empty payload. -/
def display_text (d : Payload) (st : CodeState) : Except String (Option String) := do
  let failed ← is_failed d
  pure (displayTextOf failed st)

end Heater

/-- C9: on a heater whose stored payload is still the empty dict (no update
has succeeded yet), every derived physical attribute access fails with the
KeyError naming the missing field, rather than returning a stale or default
value; display_text is taken at the initial code state (both codes None). -/
theorem heater_attrs_before_update :
    Heater.heater_temp [] = Except.error ("KeyError: ch_temp_msb") ∧
    Heater.tap_temp [] = Except.error ("KeyError: tap_temp_msb") ∧
    Heater.pressure [] = Except.error ("KeyError: ch_pressure_msb") ∧
    Heater.is_burning [] = Except.error ("KeyError: IO") ∧
    Heater.is_failed [] = Except.error ("KeyError: IO") ∧
    Heater.is_pumping [] = Except.error ("KeyError: IO") ∧
    Heater.is_tapping [] = Except.error ("KeyError: IO") ∧
    Heater.display_text [] ⟨none, none⟩ = Except.error ("KeyError: IO") :=
  ⟨rfl, rfl, rfl, rfl, rfl, rfl, rfl, rfl⟩

/-- One override command request as issued by Room.set_override: the heater
index, thermostat slot and setpoint tick count sent as the three query
parameters of the data.json request. -/
structure OverrideRequest where
  heater : ℕ
  thermostat : ℤ
  setpoint : ℤ
deriving DecidableEq

/-- Python int() applied to a rational: truncation toward zero. -/
def pyInt (q : ℚ) : ℤ := q.num.tdiv (q.den : ℤ)

namespace Room

/-- Method Room.set_override(setpoint) of the room with number room_no of the
heater with list index heater_idx: asserts the range check, raising the
ValueError outside [OVERRIDE_MIN_TEMP, OVERRIDE_MAX_TEMP] before any request;
otherwise issues the single request whose setpoint query parameter is
int((setpoint - OVERRIDE_MIN_TEMP) * 10) and whose thermostat parameter is
int(room_no) - 1. -/
def set_override (heater_idx room_no : ℕ) (setpoint : ℚ) :
    Except String OverrideRequest :=
  if OVERRIDE_MIN_TEMP ≤ setpoint ∧ setpoint ≤ OVERRIDE_MAX_TEMP then
    Except.ok ⟨heater_idx, (room_no : ℤ) - 1, pyInt ((setpoint - OVERRIDE_MIN_TEMP) * 10)⟩
  else
    Except.error ("The setpoint is outside of it\x27s valid range, 5.0-30.0.")

end Room

-- Truncation toward zero agrees with the floor on nonnegative rationals.
theorem pyInt_eq_floor (q : ℚ) (hq : 0 ≤ q) : pyInt q = ⌊q⌋ := by
  rw [Rat.floor_def]
  exact Int.tdiv_eq_ediv (Rat.num_nonneg.mpr hq) (by positivity)

/-- C4 counterexample: at the in-range target 19.55 the issued setpoint query
parameter is the truncation 145, while round((19.55 - 5.0) * 10) = 146. -/
theorem set_override_rounding_counterexample :
    Room.set_override 0 1 (19.55 : ℚ) = Except.ok ⟨0, 0, 145⟩ ∧
    round (((19.55 : ℚ) - 5) * 10) = 146 ∧ (145 : ℤ) ≠ 146 := by
  refine ⟨?_, ?_, by decide⟩
  · unfold Room.set_override OVERRIDE_MIN_TEMP OVERRIDE_MAX_TEMP
    rw [if_pos (by norm_num : (5 : ℚ) ≤ 19.55 ∧ (19.55 : ℚ) ≤ 30)]
    rw [pyInt_eq_floor _ (by norm_num)]
    norm_num [Except.ok.injEq, OverrideRequest.mk.injEq]
  · rw [round_eq]
    norm_num

/-- C4 (amended): for every in-range target t (5.0 le t le 30.0) the method
issues exactly one request whose setpoint query parameter is the integer tick
count obtained by truncating (t - 5.0) * 10 toward zero (Python int, equal to
the floor here); at t = 19.5 this is 145, agreeing with rounding there. -/
theorem set_override_in_range (h r : ℕ) (t : ℚ) (h5 : 5 ≤ t) (h30 : t ≤ 30) :
    Room.set_override h r t = Except.ok ⟨h, (r : ℤ) - 1, ⌊(t - 5) * 10⌋⟩ := by
  unfold Room.set_override OVERRIDE_MIN_TEMP OVERRIDE_MAX_TEMP
  rw [if_pos ⟨h5, h30⟩]
  have hnn : (0 : ℚ) ≤ (t - 5) * 10 := by nlinarith
  rw [pyInt_eq_floor ((t - 5) * 10) hnn]

/-- Witness for C4 (amended): set_override at 19.5 issues ticks 145. -/
theorem set_override_in_range_witness :
    Room.set_override 0 1 (19.5 : ℚ) = Except.ok ⟨0, 0, 145⟩ := by
  have h := set_override_in_range 0 1 (19.5 : ℚ) (by norm_num) (by norm_num)
  have h145 : ⌊(((19.5 : ℚ)) - 5) * 10⌋ = 145 := by norm_num
  rw [h, h145]
  norm_num

/-- C5: for every target temperature outside the closed range [5.0, 30.0] the
method raises the descriptive ValueError and no request is issued (the result
carries no request value). -/
theorem set_override_out_of_range (h r : ℕ) (t : ℚ) (hout : t < 5 ∨ 30 < t) :
    Room.set_override h r t =
      Except.error ("The setpoint is outside of it\x27s valid range, 5.0-30.0.") := by
  unfold Room.set_override OVERRIDE_MIN_TEMP OVERRIDE_MAX_TEMP
  rw [if_neg]
  rintro ⟨h1, h2⟩
  rcases hout with h3 | h3 <;> linarith

/-- Witness for C5 at the concrete out-of-range targets 3.0 and 31.0. -/
theorem set_override_out_of_range_witness :
    Room.set_override 0 1 (3 : ℚ) =
      Except.error ("The setpoint is outside of it\x27s valid range, 5.0-30.0.") ∧
    Room.set_override 0 1 (31 : ℚ) =
      Except.error ("The setpoint is outside of it\x27s valid range, 5.0-30.0.") :=
  ⟨set_override_out_of_range 0 1 3 (Or.inl (by norm_num)),
   set_override_out_of_range 0 1 31 (Or.inr (by norm_num))⟩

/-- Filter condition of the heater-list comprehension in Gateway.heaters on
one slot h: the Python truthiness of h (neither None nor the empty string)
together with h being different from NULL_SERIAL_NO. -/
def slotValid (h : Option String) : Bool :=
  match h with
  | none => false
  | some s => s != "" && s != NULL_SERIAL_NO

/-- List comprehension of Gateway.heaters: one Heater(h, idx, self) per
enumerated slot (idx, h) that passes the filter, keeping the original
position idx. -/
def heatersFromList (slots : List (Option String)) : List Heater :=
  slots.enum.filterMap fun p =>
    if slotValid p.2 then p.2.map (fun s => Heater.mk s p.1) else none

/-- URL of the status request that Heater.update issues for a heater,
parameterised by its stored heater_idx. -/
def Heater.statusUrl (h : Heater) : String :=
  "data.json?heater=" ++ toString h.heater_idx

-- Every heater built by the comprehension sits at its original list
-- position: the slot at index heater_idx holds exactly its serial string.
theorem mem_heatersFromList {slots : List (Option String)} {h : Heater}
    (hm : h ∈ heatersFromList slots) :
    slots[h.heater_idx]? = some (some h.serial_no) := by
  unfold heatersFromList at hm
  rw [List.mem_filterMap] at hm
  obtain ⟨⟨i, x⟩, hp, hf⟩ := hm
  dsimp at hf
  by_cases hv : slotValid x
  · rw [if_pos hv] at hf
    cases x with
    | none => cases hf
    | some s =>
      injection hf with hf2
      have hg := List.mk_mem_enum_iff_getElem?.mp hp
      rw [← hf2]
      exact hg
  · rw [if_neg hv] at hf
    cases hf

-- Length of the comprehension over an enumeration starting at any index:
-- one heater per slot passing the filter.
theorem length_filterMap_enumFrom (slots : List (Option String)) :
    ∀ n, ((slots.enumFrom n).filterMap fun p =>
      if slotValid p.2 then p.2.map (fun s => Heater.mk s p.1) else none).length =
      slots.countP slotValid := by
  induction slots with
  | nil => intro n; rfl
  | cons a t ih =>
    intro n
    rw [List.enumFrom, List.filterMap_cons, List.countP_cons]
    by_cases hv : slotValid a
    · cases a with
      | none => exact Bool.noConfusion hv
      | some s => simp [hv, ih (n + 1)]
    · simp [hv, ih (n + 1)]

-- Same statement for the comprehension itself.
theorem length_heatersFromList (slots : List (Option String)) :
    (heatersFromList slots).length = slots.countP slotValid := by
  unfold heatersFromList
  rw [List.enum]
  exact length_filterMap_enumFrom slots 0

/-- C6: Gateway.heaters builds exactly one Heater per slot that is neither
null nor empty nor the NULL_SERIAL_NO sentinel, each keeping its original
positional index, which is the index its status query uses; in particular the
slots [S0, null, null, null, S0, null, null, null] give two heaters with
indices 0 and 4, and the second is queried with heater=4. -/
theorem gateway_heaters_indexing (slots : List (Option String)) :
    ((heatersFromList slots).length = slots.countP slotValid) ∧
    (∀ h : Heater, h ∈ heatersFromList slots →
      slots[h.heater_idx]? = some (some h.serial_no) ∧
      Heater.statusUrl h = "data.json?heater=" ++ toString h.heater_idx) ∧
    heatersFromList [some "S0", none, none, none, some "S0", none, none, none] =
      [⟨"S0", 0⟩, ⟨"S0", 4⟩] ∧
    Heater.statusUrl ⟨"S0", 4⟩ = "data.json?heater=4" := by
  exact ⟨length_heatersFromList slots,
    fun h hm => ⟨mem_heatersFromList hm, rfl⟩, by decide, by decide⟩

/-- Witness for C6 on the concrete slot list with duplicated serial: the
heater at position 4 reads back slot 4. -/
theorem gateway_heaters_indexing_witness :
    [some "S0", none, none, none, some "S0", none, none, none][
      (Heater.mk "S0" 4).heater_idx]? = some (some "S0") :=
  ((gateway_heaters_indexing
    [some "S0", none, none, none, some "S0", none, none, none]).2.1
    (Heater.mk "S0" 4) (by decide)).1

/-- Outcome of evaluating dict(await self get of heaterlist.json)[HEATERLIST]
inside the try block of Gateway.heaters. The except clause of the source
names only (aiohttp.ClientError, UnicodeDecodeError), so the constructors
split by exception class:
clientError is an aiohttp.ClientError (connection or timeout failure, or a
non-2xx status via raise_for_status) — caught;
unicodeError is a UnicodeDecodeError while decoding the body as text —
caught;
jsonError is a json.JSONDecodeError from resp.json on a body that is text
but not valid JSON (a ValueError, which is not in the except tuple) — not
caught;
shapeError is a TypeError from dict(response) on a JSON value that is not a
mapping, or the KeyError from the HEATERLIST subscript on an object without
that key — not caught;
ok is a body parsed as a JSON object whose heaterlist member holds this list
of slots, each a serial string or null. -/
inductive FetchResult where
  | clientError (msg : String)
  | unicodeError (msg : String)
  | jsonError (msg : String)
  | shapeError (desc : String)
  | ok (heaterlist : List (Option String))
deriving DecidableEq

/-- What a call of Gateway.heaters can raise: InvalidGateway, raised from a
caught transport or text-decode exception, and InvalidHeaterList, raised on
an empty filtered list (both IncomfortError subclasses); or one of the
exceptions the except clause does not name, propagating unwrapped — the
json.JSONDecodeError of a malformed JSON body, and the TypeError or KeyError
of a well-formed JSON body of the wrong shape. -/
inductive GatewayError where
  | invalidGateway (cause : String)
  | invalidHeaterList
  | uncaughtJsonError (msg : String)
  | uncaughtShapeError (desc : String)
deriving DecidableEq

/-- One call of Gateway.heaters as a state transition: given the cached
heater list (None before any successful fetch), the force_refresh argument
and the outcome of the network fetch, it returns the call result, the new
value of the cache, and whether a network fetch was issued. Only the two
caught exception classes are re-raised as InvalidGateway; the uncaught
classes propagate unwrapped, and on every raising path the cache keeps its
previous value — except the empty-list path, where the cache assignment
happens before the emptiness check, exactly as in the source. -/
def heatersStep (cache : Option (List Heater)) (force_refresh : Bool)
    (fetch : FetchResult) :
    Except GatewayError (List Heater) × Option (List Heater) × Bool :=
  match cache, force_refresh with
  | some hs, false => (Except.ok hs, some hs, false)
  | _, _ =>
    match fetch with
    | FetchResult.clientError m =>
      (Except.error (GatewayError.invalidGateway m), cache, true)
    | FetchResult.unicodeError m =>
      (Except.error (GatewayError.invalidGateway m), cache, true)
    | FetchResult.jsonError m =>
      (Except.error (GatewayError.uncaughtJsonError m), cache, true)
    | FetchResult.shapeError d =>
      (Except.error (GatewayError.uncaughtShapeError d), cache, true)
    | FetchResult.ok slots =>
      let hs := heatersFromList slots
      if hs = [] then (Except.error GatewayError.invalidHeaterList, some hs, true)
      else (Except.ok hs, some hs, true)

-- Computation rules of heatersStep on an uncached gateway.
theorem heatersStep_none_client (m : String) :
    heatersStep none false (FetchResult.clientError m) =
      (Except.error (GatewayError.invalidGateway m), none, true) := rfl

theorem heatersStep_none_unicode (m : String) :
    heatersStep none false (FetchResult.unicodeError m) =
      (Except.error (GatewayError.invalidGateway m), none, true) := rfl

theorem heatersStep_none_json (m : String) :
    heatersStep none false (FetchResult.jsonError m) =
      (Except.error (GatewayError.uncaughtJsonError m), none, true) := rfl

theorem heatersStep_none_shape (d : String) :
    heatersStep none false (FetchResult.shapeError d) =
      (Except.error (GatewayError.uncaughtShapeError d), none, true) := rfl

theorem heatersStep_none_ok (slots : List (Option String)) :
    heatersStep none false (FetchResult.ok slots) =
      if heatersFromList slots = [] then
        (Except.error GatewayError.invalidHeaterList, some (heatersFromList slots), true)
      else (Except.ok (heatersFromList slots), some (heatersFromList slots), true) := rfl

/-- C7 counterexample: a response body that is text but not valid JSON (a
json.JSONDecodeError, a ValueError absent from the except tuple) makes the
first heaters call propagate the raw exception; it is not re-raised as the
InvalidGateway error wrapping that cause, refuting that InvalidGateway is
raised whenever the response body cannot be parsed as valid data. -/
theorem gateway_unreachable_json_counterexample :
    (heatersStep none false (FetchResult.jsonError "Expecting value")).1 =
      Except.error (GatewayError.uncaughtJsonError "Expecting value") ∧
    (heatersStep none false (FetchResult.jsonError "Expecting value")).1 ≠
      Except.error (GatewayError.invalidGateway "Expecting value") :=
  ⟨rfl, fun h => GatewayError.noConfusion (Except.error.inj h)⟩

/-- C7 (amended): on a first call, Gateway.heaters fails with InvalidGateway
exactly when the fetch raised one of the two caught exception classes
(aiohttp.ClientError for a transport failure, UnicodeDecodeError for a body
that cannot be decoded as text), and fails with InvalidHeaterList exactly
when the fetched list filters down to zero heaters — two distinct error
values; a body that is text but malformed JSON, or a well-formed JSON body of
the wrong shape, instead propagates its raw exception unwrapped. -/
theorem gateway_heaters_error_taxonomy (fetch : FetchResult) :
    ((∃ m, (heatersStep none false fetch).1 =
        Except.error (GatewayError.invalidGateway m)) ↔
      (∃ m, fetch = FetchResult.clientError m ∨ fetch = FetchResult.unicodeError m)) ∧
    ((heatersStep none false fetch).1 = Except.error GatewayError.invalidHeaterList ↔
      (∃ slots, fetch = FetchResult.ok slots ∧ heatersFromList slots = [])) ∧
    (∀ m, (heatersStep none false (FetchResult.jsonError m)).1 =
      Except.error (GatewayError.uncaughtJsonError m)) ∧
    (∀ d, (heatersStep none false (FetchResult.shapeError d)).1 =
      Except.error (GatewayError.uncaughtShapeError d)) ∧
    (∀ m, GatewayError.invalidGateway m ≠ GatewayError.invalidHeaterList) := by
  refine ⟨?_, ?_, fun m => rfl, fun d => rfl, fun m hm => by cases hm⟩
  · cases fetch with
    | clientError m => simp [heatersStep_none_client]
    | unicodeError m => simp [heatersStep_none_unicode]
    | jsonError m => simp [heatersStep_none_json]
    | shapeError d => simp [heatersStep_none_shape]
    | ok slots =>
      rw [heatersStep_none_ok]
      by_cases he : heatersFromList slots = [] <;> simp [he]
  · cases fetch with
    | clientError m => simp [heatersStep_none_client]
    | unicodeError m => simp [heatersStep_none_unicode]
    | jsonError m => simp [heatersStep_none_json]
    | shapeError d => simp [heatersStep_none_shape]
    | ok slots =>
      rw [heatersStep_none_ok]
      by_cases he : heatersFromList slots = [] <;> simp [he]

/-- Witness for C7 (amended): a transport failure yields InvalidGateway, an
all-null list yields InvalidHeaterList, and a malformed JSON body yields the
raw uncaught exception. -/
theorem gateway_heaters_error_taxonomy_witness :
    (∃ m, (heatersStep none false (FetchResult.clientError "timeout")).1 =
      Except.error (GatewayError.invalidGateway m)) ∧
    (heatersStep none false (FetchResult.ok [none, none])).1 =
      Except.error GatewayError.invalidHeaterList ∧
    (heatersStep none false (FetchResult.jsonError "Expecting value")).1 =
      Except.error (GatewayError.uncaughtJsonError "Expecting value") :=
  ⟨(gateway_heaters_error_taxonomy (FetchResult.clientError "timeout")).1.mpr
      ⟨"timeout", Or.inl rfl⟩,
   (gateway_heaters_error_taxonomy (FetchResult.ok [none, none])).2.1.mpr
      ⟨[none, none], rfl, by decide⟩,
   (gateway_heaters_error_taxonomy
      (FetchResult.jsonError "Expecting value")).2.2.1 "Expecting value"⟩

/-- C8: once the heater list is cached, every later call with force_refresh
false returns the cached list unchanged, issues no network fetch, and leaves
the cache untouched, whatever the network would have answered. -/
theorem gateway_heaters_cached (cache : Option (List Heater)) (hs : List Heater)
    (fetch : FetchResult) (hc : cache = some hs) :
    heatersStep cache false fetch = (Except.ok hs, some hs, false) := by
  subst hc
  rfl

/-- Witness for C8 on a concrete cached gateway: no fetch happens even though
the network would answer an empty list. -/
theorem gateway_heaters_cached_witness :
    heatersStep (some [⟨"S0", 0⟩]) false (FetchResult.ok []) =
      (Except.ok [⟨"S0", 0⟩], some [⟨"S0", 0⟩], false) :=
  gateway_heaters_cached (some [⟨"S0", 0⟩]) [⟨"S0", 0⟩] (FetchResult.ok []) rfl

/-- C10: when the fetched list filters down to zero heaters, the empty list is
stored in the cache before InvalidHeaterList is raised, so every later call
with force_refresh false returns the empty list with no error and no fetch. -/
theorem gateway_empty_list_caches (slots : List (Option String))
    (hempty : heatersFromList slots = []) :
    heatersStep none false (FetchResult.ok slots) =
      (Except.error GatewayError.invalidHeaterList, some ([] : List Heater), true) ∧
    (∀ fetch2, heatersStep (some ([] : List Heater)) false fetch2 =
      (Except.ok ([] : List Heater), some ([] : List Heater), false)) := by
  refine ⟨?_, fun fetch2 => rfl⟩
  rw [heatersStep_none_ok, if_pos hempty, hempty]

/-- Witness for C10: a list of one null slot, one empty serial and one
NULL_SERIAL_NO sentinel caches the empty list, and the next call returns it
without fetching even though the network would now answer a valid heater. -/
theorem gateway_empty_list_caches_witness :
    heatersStep none false (FetchResult.ok [none, some "", some "000W00000"]) =
      (Except.error GatewayError.invalidHeaterList, some ([] : List Heater), true) ∧
    heatersStep (some ([] : List Heater)) false (FetchResult.ok [some "S0"]) =
      (Except.ok ([] : List Heater), some ([] : List Heater), false) := by
  have h := gateway_empty_list_caches [none, some "", some "000W00000"] (by decide)
  exact ⟨h.1, h.2 (FetchResult.ok [some "S0"])⟩

end Incomfort
